import Mathlib

/-!
Verification development for the HCS indexer core: message parser and
classifier (packages/indexer/src/poller/parser.ts), projection writer and
cursor logic (ingestion/backfill.ts, ingestion/subscriber.ts,
poller/hcs-poller.ts), and the per-topic ingestion manager
(ingestion/manager.ts).  JSON documents are modelled as an inductive value
type; JavaScript numbers that hold integral values are modelled as `Int`
(no claim here depends on fractional numerics).  Database tables keyed by a
primary key are modelled as functions from the key; tables whose only key
is a generated surrogate id are modelled as append-only lists, matching the
actual schema (db/schema.ts), which declares no unique constraint on
hcs_messages (topic_id, sequence_number) — only non-unique indexes.
-/

/-- A JSON document as produced by `JSON.parse`.  Numeric literals are
modelled as integers, which is adequate for every claim settled here. -/
inductive Json where
  | null
  | bool (b : Bool)
  | num (n : Int)
  | str (s : String)
  | arr (elems : List Json)
  | obj (fields : List (String × Json))

/-- JavaScript truthiness of a parsed JSON value: `null`, `false`, `0` and
the empty string are falsy; objects and arrays are always truthy. -/
def Json.isFalsy : Json → Bool
  | .null => true
  | .bool b => !b
  | .num n => n == 0
  | .str s => s == ""
  | .arr _ => false
  | .obj _ => false

/-- JavaScript `typeof x === 'object'` for values produced by `JSON.parse`:
true for objects, arrays and `null`; false for strings, numbers, booleans. -/
def Json.isObjectType : Json → Bool
  | .null => true
  | .arr _ => true
  | .obj _ => true
  | _ => false

/-- Key lookup in a JSON object field list (the JS `obj[key]` /
`'key' in obj` pair: `some` iff the key is present). -/
def Json.lookup : Json → String → Option Json
  | .obj fields, key => List.lookup key fields
  | _, _ => none

/-- Source: parser.ts `classifyMessageType`.  Returns `none` for the
JavaScript `null` result (falsy input or `typeof` not an object); when the
document carries a `type` field, the field's value is returned verbatim
(the source does `return obj.type as string` with no check that the value
is a string); otherwise the structural COMMS fallback, else the literal
string "unknown". -/
def classifyMessageType (data : Json) : Option Json :=
  if data.isFalsy || !data.isObjectType then none
  else
    match data with
    | .obj fields =>
      match List.lookup "type" fields with
      | some v => some v
      | none =>
        if (List.lookup "from" fields).isSome && (List.lookup "text" fields).isSome
            && (List.lookup "timestamp" fields).isSome then
          some (Json.str "agent_comms")
        else
          some (Json.str "unknown")
    | _ => some (Json.str "unknown")

/-- types/hcs.ts `agentInitializationSchema` / `agentCreatedSchema` payload
(the two schemas differ only in their `type` literal). -/
structure AgentInitialization where
  version : String
  agentId : String
  agentName : String
  platform : String
  timestamp : Int
  metadata : Option (List (String × Json))

/-- The `action` sub-object of types/hcs.ts `openclawActionSchema`. -/
structure ActionDetail where
  tool : String
  parameters : List (String × Json)
  result : String

/-- types/hcs.ts `openclawActionSchema` payload. -/
structure OpenclawAction where
  version : String
  agentId : String
  sessionKey : String
  action : ActionDetail
  reasoning : Option String
  timestamp : Int
  previousHash : Option String

/-- types/hcs.ts `agentTransactionSchema` payload; `reasoning` is
`z.string().nullable().optional()`: `none` = key absent, `some none` =
explicit JSON null, `some (some s)` = a string. -/
structure AgentTransaction where
  version : String
  agentId : String
  transactionType : String
  transactionId : String
  details : String
  reasoning : Option (Option String)
  timestamp : Int
  previousHash : Option String

/-- types/hcs.ts `rentalInitiatedSchema` payload. -/
structure RentalInitiated where
  version : String
  agentId : String
  rentalId : String
  renter : String
  escrowAccount : String
  stakeUsd : Int
  bufferUsd : Int
  timestamp : Int

/-- The `settlement` sub-object of types/hcs.ts `rentalCompletedSchema`. -/
structure Settlement where
  owner : Int
  creator : Int
  network : Int
  treasury : Int

/-- types/hcs.ts `rentalCompletedSchema` payload. -/
structure RentalCompleted where
  version : String
  rentalId : String
  totalCostUsd : Int
  settlement : Settlement
  timestamp : Int

/-- types/hcs.ts `agentCommsSchema` payload (`from_`/`to_` model the source fields `from`/`to`, which are reserved words in Lean).  Note: this schema has no
`type` field, so zod's default strip mode drops any `type` key present on
the incoming document. -/
structure AgentComms where
  from_ : String
  timestamp : String
  text : String
  metadata : Option (List (String × Json))
  to_ : Option String

/-- types/hcs.ts `HCSMessage`: the union of the seven event schemas, in
the order `hcsMessageSchema` lists them. -/
inductive HCSMessage where
  | agentInit (e : AgentInitialization)
  | agentCreated (e : AgentInitialization)
  | openclawAction (e : OpenclawAction)
  | agentTransaction (e : AgentTransaction)
  | rentalInitiated (e : RentalInitiated)
  | rentalCompleted (e : RentalCompleted)
  | comms (e : AgentComms)

/-- zod `z.string().optional()` applied to an optional key: absent is
fine, present values must be strings. -/
def zOptString : Option Json → Option (Option String)
  | none => some none
  | some (Json.str s) => some (some s)
  | some _ => none

/-- zod `z.record(z.any()).optional()` applied to an optional key: absent
is fine, present values must be objects. -/
def zOptRecord : Option Json → Option (Option (List (String × Json)))
  | none => some none
  | some (Json.obj fields) => some (some fields)
  | some _ => none

/-- zod `z.string().nullable().optional()` applied to an optional key. -/
def zOptNullableString : Option Json → Option (Option (Option String))
  | none => some none
  | some Json.null => some (some none)
  | some (Json.str s) => some (some (some s))
  | some _ => none

/-- zod parse against `agentInitializationSchema` (or `agentCreatedSchema`,
selected by the `type` literal).  zod objects reject non-objects, require
every non-optional key with the right type, and strip unknown keys. -/
def parseAgentLike (typeLit : String) : Json → Option AgentInitialization
  | .obj fields =>
    match List.lookup "version" fields, List.lookup "type" fields,
        List.lookup "agentId" fields, List.lookup "agentName" fields,
        List.lookup "platform" fields, List.lookup "timestamp" fields,
        zOptRecord (List.lookup "metadata" fields) with
    | some (Json.str version), some (Json.str t), some (Json.str agentId),
      some (Json.str agentName), some (Json.str platform), some (Json.num timestamp),
      some metadata =>
      if t = typeLit then
        some ⟨version, agentId, agentName, platform, timestamp, metadata⟩
      else none
    | _, _, _, _, _, _, _ => none
  | _ => none

/-- zod parse against the `action` object schema inside
`openclawActionSchema`. -/
def parseActionDetail : Json → Option ActionDetail
  | .obj fields =>
    match List.lookup "tool" fields, List.lookup "parameters" fields,
        List.lookup "result" fields with
    | some (Json.str tool), some (Json.obj parameters), some (Json.str result) =>
      some ⟨tool, parameters, result⟩
    | _, _, _ => none
  | _ => none

/-- zod parse against `openclawActionSchema`. -/
def parseOpenclawAction : Json → Option OpenclawAction
  | .obj fields =>
    match List.lookup "version" fields, List.lookup "type" fields,
        List.lookup "agentId" fields, List.lookup "sessionKey" fields,
        (List.lookup "action" fields).bind parseActionDetail,
        zOptString (List.lookup "reasoning" fields),
        List.lookup "timestamp" fields,
        zOptString (List.lookup "previousHash" fields) with
    | some (Json.str version), some (Json.str t), some (Json.str agentId),
      some (Json.str sessionKey), some action, some reasoning,
      some (Json.num timestamp), some previousHash =>
      if t = "OPENCLAW_ACTION" then
        some ⟨version, agentId, sessionKey, action, reasoning, timestamp, previousHash⟩
      else none
    | _, _, _, _, _, _, _, _ => none
  | _ => none

/-- zod parse against `agentTransactionSchema`. -/
def parseAgentTransaction : Json → Option AgentTransaction
  | .obj fields =>
    match List.lookup "version" fields, List.lookup "type" fields,
        List.lookup "agentId" fields, List.lookup "transactionType" fields,
        List.lookup "transactionId" fields, List.lookup "details" fields,
        zOptNullableString (List.lookup "reasoning" fields),
        List.lookup "timestamp" fields,
        zOptString (List.lookup "previousHash" fields) with
    | some (Json.str version), some (Json.str t), some (Json.str agentId),
      some (Json.str transactionType), some (Json.str transactionId),
      some (Json.str details), some reasoning, some (Json.num timestamp),
      some previousHash =>
      if t = "AGENT_TRANSACTION" then
        some ⟨version, agentId, transactionType, transactionId, details, reasoning,
          timestamp, previousHash⟩
      else none
    | _, _, _, _, _, _, _, _, _ => none
  | _ => none

/-- zod parse against `rentalInitiatedSchema`. -/
def parseRentalInitiated : Json → Option RentalInitiated
  | .obj fields =>
    match List.lookup "version" fields, List.lookup "type" fields,
        List.lookup "agentId" fields, List.lookup "rentalId" fields,
        List.lookup "renter" fields, List.lookup "escrowAccount" fields,
        List.lookup "stakeUsd" fields, List.lookup "bufferUsd" fields,
        List.lookup "timestamp" fields with
    | some (Json.str version), some (Json.str t), some (Json.str agentId),
      some (Json.str rentalId), some (Json.str renter), some (Json.str escrowAccount),
      some (Json.num stakeUsd), some (Json.num bufferUsd), some (Json.num timestamp) =>
      if t = "rental_initiated" then
        some ⟨version, agentId, rentalId, renter, escrowAccount, stakeUsd, bufferUsd,
          timestamp⟩
      else none
    | _, _, _, _, _, _, _, _, _ => none
  | _ => none

/-- zod parse against the `settlement` object schema inside
`rentalCompletedSchema`. -/
def parseSettlement : Json → Option Settlement
  | .obj fields =>
    match List.lookup "owner" fields, List.lookup "creator" fields,
        List.lookup "network" fields, List.lookup "treasury" fields with
    | some (Json.num owner), some (Json.num creator), some (Json.num network),
      some (Json.num treasury) =>
      some ⟨owner, creator, network, treasury⟩
    | _, _, _, _ => none
  | _ => none

/-- zod parse against `rentalCompletedSchema`. -/
def parseRentalCompleted : Json → Option RentalCompleted
  | .obj fields =>
    match List.lookup "version" fields, List.lookup "type" fields,
        List.lookup "rentalId" fields, List.lookup "totalCostUsd" fields,
        (List.lookup "settlement" fields).bind parseSettlement,
        List.lookup "timestamp" fields with
    | some (Json.str version), some (Json.str t), some (Json.str rentalId),
      some (Json.num totalCostUsd), some settlement, some (Json.num timestamp) =>
      if t = "rental_completed" then
        some ⟨version, rentalId, totalCostUsd, settlement, timestamp⟩
      else none
    | _, _, _, _, _, _ => none
  | _ => none

/-- zod parse against `agentCommsSchema`.  A `type` key, if present, is an
unknown key and is stripped. -/
def parseAgentComms : Json → Option AgentComms
  | .obj fields =>
    match List.lookup "from" fields, List.lookup "timestamp" fields,
        List.lookup "text" fields, zOptRecord (List.lookup "metadata" fields),
        zOptString (List.lookup "to" fields) with
    | some (Json.str f), some (Json.str timestamp), some (Json.str text),
      some metadata, some toAgent =>
      some ⟨f, timestamp, text, metadata, toAgent⟩
    | _, _, _, _, _ => none
  | _ => none

/-- Source: parser.ts `validateMessage`.  The source first tries
`hcsMessageSchema` (a zod union that tries its seven members in order) and
on failure loops over the same seven schemas in the same order, so the net
result is the first schema in that order that accepts the document. -/
def validateMessage (data : Json) : Option HCSMessage :=
  match parseAgentLike "AGENT_INITIALIZATION" data with
  | some e => some (HCSMessage.agentInit e)
  | none =>
  match parseAgentLike "agent_created" data with
  | some e => some (HCSMessage.agentCreated e)
  | none =>
  match parseOpenclawAction data with
  | some e => some (HCSMessage.openclawAction e)
  | none =>
  match parseAgentTransaction data with
  | some e => some (HCSMessage.agentTransaction e)
  | none =>
  match parseRentalInitiated data with
  | some e => some (HCSMessage.rentalInitiated e)
  | none =>
  match parseRentalCompleted data with
  | some e => some (HCSMessage.rentalCompleted e)
  | none =>
  match parseAgentComms data with
  | some e => some (HCSMessage.comms e)
  | none => none

/-- types/hcs.ts `MirrorNodeMessage`.  The base64 `message` field is
modelled by its decode outcome: `none` when `JSON.parse` of the decoded
text throws (invalid JSON), `some v` when it yields the document `v`;
Node's lenient base64 decoder itself never throws. -/
structure MirrorNodeMessage where
  consensus_timestamp : String
  topic_id : String
  message : Option Json
  payer_account_id : Option String
  sequence_number : Nat

/-- Source: parser.ts `decodeBase64Message`.  The catch branch returns the
JavaScript `null`, which is indistinguishable from a successfully parsed
JSON `null` document. -/
def decodeBase64Message : Option Json → Json
  | none => Json.null
  | some v => v

/-- parser.ts `ParsedMessage`.  `decoded` is the JavaScript value stored in
the record (the source writes `decoded: null` on failure). -/
structure ParsedMessage where
  raw : MirrorNodeMessage
  decoded : Json
  validated : Option HCSMessage
  messageType : Option Json
  error : Option String

/-- Source: parser.ts `parseMessage`.  The failure test is JavaScript
truthiness (`if (!decoded)`), so every falsy decoded document is reported
as a decode failure. -/
def parseMessage (message : MirrorNodeMessage) : ParsedMessage :=
  let decoded := decodeBase64Message message.message
  if decoded.isFalsy then
    { raw := message, decoded := Json.null, validated := none, messageType := none,
      error := some "Failed to decode base64 message" }
  else
    let messageType := classifyMessageType decoded
    let validated := validateMessage decoded
    { raw := message, decoded := decoded, validated := validated,
      messageType := messageType,
      error := if validated.isSome then none else some "Message failed validation" }

/-- A row of `hcs_messages` (db/schema.ts): surrogate-keyed, so modelled
positionally in an append-only list.  `messageBase64` carries the same
payload abstraction as `MirrorNodeMessage.message`. -/
structure HcsRow where
  topicId : String
  consensusTimestamp : String
  sequenceNumber : Nat
  payerAccountId : Option String
  messageBase64 : Option Json
  decodedJson : Json
  messageType : Option Json

/-- The single `sync_cursors` row for a topic (db/schema.ts); the table is
keyed by `topic_id`, so the model stores it under the key. -/
structure CursorRow where
  lastTimestamp : String
  lastSequenceNumber : Nat
  updatedAt : Nat

/-- A row of `agents` (db/schema.ts), keyed by `agent_id`.  `version` and
`operatingAccount` come from `metadata?.version` / `metadata?.operatingAccount`,
which are untyped (`z.any()`), hence `Option Json`. -/
structure AgentRow where
  agentName : String
  platform : String
  version : Option Json
  operatingAccount : Option Json
  firstSeenAt : Nat
  lastSeenAt : Nat
  metadata : Option (List (String × Json))

/-- A row of `agent_events` (db/schema.ts): surrogate-keyed append-only. -/
structure EventRow where
  agentId : String
  eventType : String
  sessionKey : Option String
  transactionId : Option String
  transactionType : Option String
  action : Option ActionDetail
  reasoning : Option String
  details : Option String
  previousHash : Option String
  timestamp : Int
  consensusTimestamp : String
  rawData : HCSMessage

/-- A row of `rentals` (db/schema.ts), keyed by `rental_id`. -/
structure RentalRow where
  agentId : String
  renter : Option String
  escrowAccount : Option String
  stakeUsd : Option Int
  bufferUsd : Option Int
  totalCostUsd : Option Int
  settlement : Option Settlement
  status : String
  initiatedAt : Option Int
  completedAt : Option Int
  updatedAt : Nat

/-- A row of `agent_comms` (db/schema.ts): surrogate-keyed append-only. -/
structure CommsRow where
  topicId : String
  fromAgent : String
  toAgent : Option String
  text : String
  timestamp : String
  consensusTimestamp : String
  metadata : Option (List (String × Json))

/-- The database state owned by the core.  Tables with a natural primary
key (`sync_cursors`, `agents`, `rentals`) are functions from the key;
surrogate-id tables (`hcs_messages`, `agent_events`, `agent_comms`) are
append-only lists.  Per db/schema.ts, `hcs_messages` has NO unique
constraint on (topic_id, sequence_number) — only non-unique indexes — so
its inserts never conflict. -/
structure DbState where
  syncCursors : String → Option CursorRow
  hcsMessages : List HcsRow
  agents : String → Option AgentRow
  agentEvents : List EventRow
  rentals : String → Option RentalRow
  agentComms : List CommsRow

/-- The empty database. -/
def emptyDb : DbState :=
  { syncCursors := fun _ => none, hcsMessages := [], agents := fun _ => none,
    agentEvents := [], rentals := fun _ => none, agentComms := [] }

/-- `db.insert(hcsMessages).values(...).onConflictDoNothing()`: since the
schema declares no unique constraint on (topic_id, sequence_number), the
ON CONFLICT clause never fires and the insert always appends. -/
def insertHcsMessage (row : HcsRow) (db : DbState) : DbState :=
  { db with hcsMessages := db.hcsMessages ++ [row] }

/-- `db.insert(syncCursors).values(...).onConflictDoUpdate(...)` keyed by
the `topic_id` primary key: a true upsert. -/
def upsertCursor (topicId : String) (ts : String) (seq : Nat) (now : Nat)
    (db : DbState) : DbState :=
  { db with syncCursors := fun t =>
      if t = topicId then some ⟨ts, seq, now⟩ else db.syncCursors t }

/-- The AGENT_INITIALIZATION / agent_created projector: upsert by
`agent_id`; on conflict `first_seen_at` is preserved and the descriptive
fields and `last_seen_at` are overwritten. -/
def upsertAgent (e : AgentInitialization) (now : Nat) (db : DbState) : DbState :=
  { db with agents := fun a =>
      if a = e.agentId then
        match db.agents e.agentId with
        | none => some ⟨e.agentName, e.platform,
            e.metadata.bind (fun m => List.lookup "version" m),
            e.metadata.bind (fun m => List.lookup "operatingAccount" m),
            now, now, e.metadata⟩
        | some old => some ⟨e.agentName, e.platform,
            e.metadata.bind (fun m => List.lookup "version" m),
            e.metadata.bind (fun m => List.lookup "operatingAccount" m),
            old.firstSeenAt, now, e.metadata⟩
      else db.agents a }

/-- `db.update(agents).set({ lastSeenAt: now }).where(eq(agents.agentId, id))`:
updates the row when it exists, otherwise touches nothing. -/
def touchAgentLastSeen (agentId : String) (now : Nat) (db : DbState) : DbState :=
  { db with agents := fun a =>
      if a = agentId then (db.agents agentId).map (fun r => { r with lastSeenAt := now })
      else db.agents a }

/-- Append to `agent_events` (surrogate id, never conflicts). -/
def appendAgentEvent (row : EventRow) (db : DbState) : DbState :=
  { db with agentEvents := db.agentEvents ++ [row] }

/-- Append to `agent_comms` (surrogate id, never conflicts). -/
def appendAgentComms (row : CommsRow) (db : DbState) : DbState :=
  { db with agentComms := db.agentComms ++ [row] }

/-- `db.insert(rentals).values(...).onConflictDoNothing()`: `rental_id` is
the primary key, so an existing row is left untouched. -/
def insertRentalIfAbsent (rentalId : String) (row : RentalRow) (db : DbState) : DbState :=
  match db.rentals rentalId with
  | some _ => db
  | none => { db with rentals := fun r =>
      if r = rentalId then some row else db.rentals r }

/-- The RENTAL_COMPLETED projector's
`db.update(rentals).set(...).where(eq(rentals.rentalId, id))`: a no-op when
no row matches. -/
def completeRental (e : RentalCompleted) (now : Nat) (db : DbState) : DbState :=
  { db with rentals := fun r =>
      if r = e.rentalId then
        (db.rentals e.rentalId).map (fun old =>
          { old with
            totalCostUsd := some e.totalCostUsd
            settlement := some e.settlement
            status := "completed"
            completedAt := some e.timestamp
            updatedAt := now })
      else db.rentals r }

/-- Source: `processTypedEvent` (identical in BackfillService,
TopicSubscriber and TopicPoller, up to where the topic id comes from).
The source dispatches on `'type' in event ? event.type : 'agent_comms'`;
validated events carry exactly the literals matched here, and the COMMS
variant is the only one without a `type` key, so the inductive match is
the same dispatch.  `now` models `new Date()`. -/
def processTypedEvent (topicId : String) (now : Nat) (event : HCSMessage)
    (consensusTimestamp : String) (db : DbState) : DbState :=
  match event with
  | .agentInit e => upsertAgent e now db
  | .agentCreated e => upsertAgent e now db
  | .openclawAction e =>
    touchAgentLastSeen e.agentId now
      (appendAgentEvent
        { agentId := e.agentId, eventType := "OPENCLAW_ACTION",
          sessionKey := some e.sessionKey, transactionId := none,
          transactionType := none, action := some e.action,
          reasoning := e.reasoning, details := none,
          previousHash := e.previousHash, timestamp := e.timestamp,
          consensusTimestamp := consensusTimestamp, rawData := event } db)
  | .agentTransaction e =>
    touchAgentLastSeen e.agentId now
      (appendAgentEvent
        { agentId := e.agentId, eventType := "AGENT_TRANSACTION",
          sessionKey := none, transactionId := some e.transactionId,
          transactionType := some e.transactionType, action := none,
          reasoning :=
            (match e.reasoning with
             | some (some s) => if s = "" then none else some s
             | _ => none),
          details := some e.details, previousHash := e.previousHash,
          timestamp := e.timestamp, consensusTimestamp := consensusTimestamp,
          rawData := event } db)
  | .rentalInitiated e =>
    insertRentalIfAbsent e.rentalId
      { agentId := e.agentId, renter := some e.renter,
        escrowAccount := some e.escrowAccount, stakeUsd := some e.stakeUsd,
        bufferUsd := some e.bufferUsd, totalCostUsd := none, settlement := none,
        status := "initiated", initiatedAt := some e.timestamp,
        completedAt := none, updatedAt := now } db
  | .rentalCompleted e => completeRental e now db
  | .comms e =>
    appendAgentComms
      { topicId := topicId, fromAgent := e.from_, toAgent := e.to_,
        text := e.text, timestamp := e.timestamp,
        consensusTimestamp := consensusTimestamp, metadata := e.metadata } db

/-- One message through the BackfillService.run inner loop (also the
success path of TopicPoller.processMessages, whose three statements are
identical): insert the substrate record, project when validated, then
upsert the cursor — three separate statements, no transaction. -/
def backfillProcessMessage (topicId : String) (now : Nat) (db : DbState)
    (message : MirrorNodeMessage) : DbState :=
  let parsed := parseMessage message
  let db1 := insertHcsMessage
    { topicId := topicId, consensusTimestamp := parsed.raw.consensus_timestamp,
      sequenceNumber := parsed.raw.sequence_number,
      payerAccountId := parsed.raw.payer_account_id,
      messageBase64 := parsed.raw.message, decodedJson := parsed.decoded,
      messageType := parsed.messageType } db
  let db2 :=
    match parsed.validated with
    | some v => processTypedEvent topicId now v message.consensus_timestamp db1
    | none => db1
  upsertCursor topicId message.consensus_timestamp message.sequence_number now db2

/-- A full fetched page through BackfillService.run. -/
def backfillRunPage (topicId : String) (now : Nat) (messages : List MirrorNodeMessage)
    (db : DbState) : DbState :=
  messages.foldl (backfillProcessMessage topicId now) db

/-- A message as delivered to TopicSubscriber.handleMessage by the SDK:
`contents` carries the same JSON-parse abstraction as
`MirrorNodeMessage.message`; `topicId` is `message.topicId?.toString()`. -/
structure SdkMessage where
  contents : Option Json
  consensusTimestamp : String
  sequenceNumber : Nat
  topicId : Option String

/-- Source: TopicSubscriber.handleMessage.  `JSON.parse` failure yields the
JavaScript `null`; classification and validation run only on truthy
decodes; the raw record stores `decoded` as-is; the three writes are again
separate statements. -/
def subscriberHandleMessage (subTopicId : String) (now : Nat) (db : DbState)
    (message : SdkMessage) : DbState :=
  let decoded := decodeBase64Message message.contents
  let topicId := message.topicId.getD subTopicId
  let messageType := if decoded.isFalsy then none else classifyMessageType decoded
  let validated := if decoded.isFalsy then none else validateMessage decoded
  let db1 := insertHcsMessage
    { topicId := topicId, consensusTimestamp := message.consensusTimestamp,
      sequenceNumber := message.sequenceNumber, payerAccountId := none,
      messageBase64 := message.contents, decodedJson := decoded,
      messageType := messageType } db
  let db2 :=
    match validated with
    | some v => processTypedEvent topicId now v message.consensusTimestamp db1
    | none => db1
  upsertCursor topicId message.consensusTimestamp message.sequenceNumber now db2

/-- One message-processing step of the ingestion path: either the
poller/backfill REST path or the subscriber push path. -/
inductive IngestStep where
  | pollerMsg (m : MirrorNodeMessage)
  | streamMsg (m : SdkMessage)

/-- The sequence number a step carries. -/
def stepSeq : IngestStep → Nat
  | .pollerMsg m => m.sequence_number
  | .streamMsg m => m.sequenceNumber

/-- Whether the step's writes land under the supervisor's topic: the
poller always uses its own topic id; the subscriber uses
`message.topicId?.toString() || this.topicId`. -/
def stepTopicOk (topicId : String) : IngestStep → Bool
  | .pollerMsg _ => true
  | .streamMsg m => m.topicId.getD topicId == topicId

/-- Apply one ingestion step to the database. -/
def applyStep (topicId : String) (now : Nat) (db : DbState) : IngestStep → DbState
  | .pollerMsg m => backfillProcessMessage topicId now db m
  | .streamMsg m => subscriberHandleMessage topicId now db m

/-- Apply a sequence of ingestion steps in order. -/
def applySteps (topicId : String) (now : Nat) (steps : List IngestStep)
    (db : DbState) : DbState :=
  steps.foldl (applyStep topicId now) db

/-- The sequence numbers of the stored substrate records for a topic. -/
def recordSeqs (topicId : String) (db : DbState) : List Nat :=
  (db.hcsMessages.filter (fun r => r.topicId == topicId)).map
    (fun r => r.sequenceNumber)

/-- The cursor's `last_sequence_number` for a topic, when the row exists. -/
def cursorSeq (topicId : String) (db : DbState) : Option Nat :=
  (db.syncCursors topicId).map (fun c => c.lastSequenceNumber)

/-- Which of the three database statements of one message unit succeed.
A failing statement models the awaited database call throwing; because the
three statements share no transaction, the earlier statements of the same
message stay committed. -/
structure WritePlan where
  insertOk : Bool
  projectionOk : Bool
  cursorOk : Bool

/-- Source: TopicPoller.processMessages with its per-message try/catch:
an exception from any statement is caught and logged, the remaining
statements of that message are skipped, and the loop continues with the
next message — the failed message is not retried and the already-committed
statements are not rolled back. -/
def pollerProcessMessage (topicId : String) (now : Nat) (db : DbState)
    (message : MirrorNodeMessage) (plan : WritePlan) : DbState :=
  let parsed := parseMessage message
  if !plan.insertOk then db
  else
    let db1 := insertHcsMessage
      { topicId := topicId, consensusTimestamp := parsed.raw.consensus_timestamp,
        sequenceNumber := parsed.raw.sequence_number,
        payerAccountId := parsed.raw.payer_account_id,
        messageBase64 := parsed.raw.message, decodedJson := parsed.decoded,
        messageType := parsed.messageType } db
    if parsed.validated.isSome && !plan.projectionOk then db1
    else
      let db2 :=
        match parsed.validated with
        | some v => processTypedEvent topicId now v message.consensus_timestamp db1
        | none => db1
      if !plan.cursorOk then db2
      else upsertCursor topicId message.consensus_timestamp message.sequence_number now db2

/-- TopicPoller.processMessages over a batch, with a write plan per
message. -/
def pollerProcessMessages (topicId : String) (now : Nat)
    (batch : List (MirrorNodeMessage × WritePlan)) (db : DbState) : DbState :=
  batch.foldl (fun acc mp => pollerProcessMessage topicId now acc mp.1 mp.2) db

/-- ingestion/manager.ts `TopicStatus`. -/
inductive TopicStatus where
  | idle
  | backfilling
  | streaming
  | reconnecting
  | error
deriving DecidableEq

/-- ingestion/manager.ts `TopicState` (without the subscriber/backfill
object handles, which carry no state the claims mention);
`reconnectTimeout` records the delay of the pending reconnect timer. -/
structure SupervisorState where
  status : TopicStatus
  reconnectAttempts : Nat
  reconnectTimeout : Option Nat
  lastError : Option String
deriving DecidableEq

/-- The outcomes the environment hands a backfill-then-stream pass: does
BackfillService.run resolve, and does TopicSubscriber.start return without
throwing. -/
structure RunOutcome where
  backfillOk : Bool
  backfillErr : String
  subscribeOk : Bool
  subscribeErr : String
deriving DecidableEq

/-- Lookup in the manager's topic map (JS `Map.get`). -/
def mapGet : List (String × SupervisorState) → String → Option SupervisorState
  | [], _ => none
  | (k0, v0) :: rest, k => if k0 = k then some v0 else mapGet rest k

/-- Update-or-append in the manager's topic map (JS `Map.set`). -/
def mapSet : List (String × SupervisorState) → String → SupervisorState →
    List (String × SupervisorState)
  | [], k, v => [(k, v)]
  | (k0, v0) :: rest, k, v =>
    if k0 = k then (k, v) :: rest else (k0, v0) :: mapSet rest k v

/-- ingestion/manager.ts `IngestionManager`'s own state: the topic map and
the running flag. -/
structure ManagerState where
  topics : List (String × SupervisorState)
  isRunning : Bool
deriving DecidableEq

/-- A freshly constructed manager. -/
def freshManager : ManagerState := { topics := [], isRunning := false }

/-- Source: IngestionManager.scheduleReconnect: increment the attempt
counter and schedule the timer at
`Math.min(1000 * Math.pow(2, attempts - 1), 60000)` ms.  For every
attempt count the float computation agrees with this natural-number
formula: powers of two are exact doubles until they exceed the 60000 clamp
(and overflow to Infinity still clamps to 60000). -/
def scheduleReconnect (m : ManagerState) (topicId : String) : ManagerState :=
  match mapGet m.topics topicId with
  | none => m
  | some st =>
    if m.isRunning then
      let attempts := st.reconnectAttempts + 1
      let delay := min (1000 * 2 ^ (attempts - 1)) 60000
      let st1 := { st with reconnectAttempts := attempts, reconnectTimeout := some delay }
      { m with topics := mapSet m.topics topicId st1 }
    else m

/-- Source: IngestionManager.startStreaming: set status `streaming` and
reset the attempt counter BEFORE `subscriber.start()` is awaited; a throw
from start flips the status to `error` and schedules a reconnect. -/
def startStreaming (m : ManagerState) (topicId : String) (subscribeOk : Bool)
    (subscribeErr : String) : ManagerState :=
  match mapGet m.topics topicId with
  | none => m
  | some st =>
    if m.isRunning then
      let st1 := { st with status := TopicStatus.streaming, reconnectAttempts := 0 }
      let m1 := { m with topics := mapSet m.topics topicId st1 }
      if subscribeOk then m1
      else
        let st2 := { st1 with status := TopicStatus.error, lastError := some subscribeErr }
        scheduleReconnect { m1 with topics := mapSet m1.topics topicId st2 } topicId
    else m

/-- Source: IngestionManager.runBackfillThenStream: status `backfilling`
while the pass runs; a rejected BackfillService.run sets status `error`
(not `reconnecting`), records the message and schedules a reconnect; a
resolved run hands off to startStreaming. -/
def runBackfillThenStream (m : ManagerState) (topicId : String) (o : RunOutcome) :
    ManagerState :=
  match mapGet m.topics topicId with
  | none => m
  | some st =>
    if m.isRunning then
      let stb := { st with status := TopicStatus.backfilling }
      let m1 := { m with topics := mapSet m.topics topicId stb }
      if o.backfillOk then startStreaming m1 topicId o.subscribeOk o.subscribeErr
      else
        let st2 := { st with status := TopicStatus.error, lastError := some o.backfillErr }
        scheduleReconnect { m1 with topics := mapSet m1.topics topicId st2 } topicId
    else m

/-- Source: IngestionManager.startTopic: register a fresh idle supervisor
state, then run backfill-then-stream. -/
def startTopic (m : ManagerState) (topicId : String) (o : RunOutcome) : ManagerState :=
  let st0 : SupervisorState :=
    { status := TopicStatus.idle, reconnectAttempts := 0,
      reconnectTimeout := none, lastError := none }
  runBackfillThenStream { m with topics := mapSet m.topics topicId st0 } topicId o

/-- Source: IngestionManager.addTopic: an already-tracked topic is only
logged; an untracked topic is started when the manager runs — and
otherwise the call falls through and does NOTHING (no pending record of
any kind is kept). -/
def addTopic (m : ManagerState) (topicId : String) (o : RunOutcome) : ManagerState :=
  if (mapGet m.topics topicId).isSome then m
  else if m.isRunning then startTopic m topicId o
  else m

/-- Source: IngestionManager.start: set the running flag, then start each
seed topic in order. -/
def mgrStart (m : ManagerState) (jobs : List (String × RunOutcome)) : ManagerState :=
  jobs.foldl (fun acc j => startTopic acc j.1 j.2) { m with isRunning := true }

/-- The reconnect timer firing for a topic: the callback re-runs
backfill-then-stream when the manager still runs. -/
def timerFire (m : ManagerState) (topicId : String) (o : RunOutcome) : ManagerState :=
  if m.isRunning then runBackfillThenStream m topicId o else m

/-- The subscriber's onDisconnect callback: status `reconnecting`, then
schedule a reconnect (only while the manager runs). -/
def subscriberDisconnect (m : ManagerState) (topicId : String) : ManagerState :=
  match mapGet m.topics topicId with
  | none => m
  | some st =>
    if m.isRunning then
      let st1 := { st with status := TopicStatus.reconnecting }
      scheduleReconnect { m with topics := mapSet m.topics topicId st1 } topicId
    else m

/-- The subscriber's onError callback: records the message only. -/
def subscriberFailure (m : ManagerState) (topicId : String) (msg : String) :
    ManagerState :=
  match mapGet m.topics topicId with
  | none => m
  | some st =>
    { m with topics := mapSet m.topics topicId { st with lastError := some msg } }

/-- Source: IngestionManager.stop: clear timers, stop services, clear the
map, drop the running flag. -/
def mgrStop (_m : ManagerState) : ManagerState := { topics := [], isRunning := false }

/-- The events that can hit a running manager, each carrying the outcome
of the asynchronous work it triggers. -/
inductive MgrEvent where
  | add (topicId : String) (o : RunOutcome)
  | timer (topicId : String) (o : RunOutcome)
  | disconnect (topicId : String)
  | subFail (topicId : String) (msg : String)
  | stop

/-- One manager transition. -/
def mgrStep (m : ManagerState) : MgrEvent → ManagerState
  | .add t o => addTopic m t o
  | .timer t o => timerFire m t o
  | .disconnect t => subscriberDisconnect m t
  | .subFail t msg => subscriberFailure m t msg
  | .stop => mgrStop m

/-- A topic's supervisor status as getStatus reports it. -/
def statusOf (topicId : String) (m : ManagerState) : Option TopicStatus :=
  (mapGet m.topics topicId).map (fun st => st.status)

/-- How many entries the topic map holds for a key. -/
def countKey (l : List (String × SupervisorState)) (k : String) : Nat :=
  (l.filter (fun p => p.1 == k)).length

/-- Fueled binary logarithm (floor of log2; 0 for 0 and 1).  The fuel of
1100 suffices for every value below 2^1100, far beyond the 2^1024 overflow
threshold of an IEEE-754 double. -/
def log2Fuel : Nat → Nat → Nat
  | 0, _ => 0
  | fuel + 1, n => if 2 ≤ n then log2Fuel fuel (n / 2) + 1 else 0

/-- Floor of the binary logarithm, kernel-reducible. -/
def natLog2 (n : Nat) : Nat := log2Fuel 1100 n

/-- Rounding a nonnegative integer to the nearest IEEE-754 binary64 value
(round to nearest, ties to even), as the JavaScript `Number(bigint)`
conversion does: exact below 2^53, otherwise rounded to the 53-bit
mantissa grid. -/
def roundToNearestDouble (n : Nat) : Nat :=
  if n ≤ 2 ^ 53 then n
  else
    let ulp := 2 ^ (natLog2 n - 52)
    let q := n / ulp
    let r := n % ulp
    if 2 * r < ulp then q * ulp
    else if ulp < 2 * r then (q + 1) * ulp
    else if q % 2 = 0 then q * ulp else (q + 1) * ulp

/-- The split on the first dot performed by
`startTimestamp.split('.')` on a `seconds.nanos` timestamp. -/
def splitDot : List Char → List Char × List Char
  | [] => ([], [])
  | c :: rest =>
    if c = '.' then ([], rest)
    else
      let p := splitDot rest
      (c :: p.1, p.2)

/-- `parseInt` on a string of decimal digits (the only form a
`seconds.nanos` cursor timestamp contains). -/
def digitsToNat (cs : List Char) : Nat :=
  cs.foldl (fun acc c => acc * 10 + (c.toNat - 48)) 0

/-- Source: TopicSubscriber.start: split the cursor timestamp on the dot,
add one to the nanosecond field, and build the SDK start time from
`Number(BigInt(seconds) * 1_000_000_000n + BigInt(nanos + 1))` — the
BigInt total is converted to a double before the SDK consumes it.  Result:
the effective subscription start instant in total nanoseconds. -/
def subscriberEffectiveStartNanos (startTimestamp : String) : Nat :=
  let parts := splitDot startTimestamp.data
  let seconds := digitsToNat parts.1
  let nanos := digitsToNat parts.2
  roundToNearestDouble (seconds * 1000000000 + (nanos + 1))

/-- `parseMessage` echoes the raw message unchanged. -/
theorem parseMessage_raw (m : MirrorNodeMessage) : (parseMessage m).raw = m := by
  by_cases h : (decodeBase64Message m.message).isFalsy <;> simp [parseMessage, h]

/-- The projectors never touch the `hcs_messages` table. -/
theorem processTypedEvent_hcsMessages (topicId : String) (now : Nat)
    (event : HCSMessage) (ts : String) (db : DbState) :
    (processTypedEvent topicId now event ts db).hcsMessages = db.hcsMessages := by
  cases event with
  | rentalInitiated e =>
    simp only [processTypedEvent, insertRentalIfAbsent]
    split <;> rfl
  | _ => rfl

/-- The projectors never touch the `sync_cursors` table. -/
theorem processTypedEvent_syncCursors (topicId : String) (now : Nat)
    (event : HCSMessage) (ts : String) (db : DbState) :
    (processTypedEvent topicId now event ts db).syncCursors = db.syncCursors := by
  cases event with
  | rentalInitiated e =>
    simp only [processTypedEvent, insertRentalIfAbsent]
    split <;> rfl
  | _ => rfl

/-- Substrate sequence numbers after an insert. -/
theorem recordSeqs_insertHcsMessage (t : String) (row : HcsRow) (db : DbState) :
    recordSeqs t (insertHcsMessage row db) =
      if row.topicId = t then recordSeqs t db ++ [row.sequenceNumber]
      else recordSeqs t db := by
  by_cases h : row.topicId = t <;>
    simp [recordSeqs, insertHcsMessage, List.filter_append, h]

/-- The cursor upsert sets exactly the topic's cursor row. -/
theorem cursorSeq_upsertCursor (t : String) (ts : String) (seq now : Nat)
    (db : DbState) : cursorSeq t (upsertCursor t ts seq now db) = some seq := by
  simp [cursorSeq, upsertCursor]

/-- The cursor upsert leaves the substrate table alone. -/
theorem recordSeqs_upsertCursor (t t2 : String) (ts : String) (seq now : Nat)
    (db : DbState) : recordSeqs t (upsertCursor t2 ts seq now db) = recordSeqs t db :=
  rfl

/-- One backfill/poller message adds exactly its sequence number to the
topic's substrate records. -/
theorem backfillProcessMessage_recordSeqs (t : String) (now : Nat) (db : DbState)
    (m : MirrorNodeMessage) :
    recordSeqs t (backfillProcessMessage t now db m) =
      recordSeqs t db ++ [m.sequence_number] := by
  simp only [backfillProcessMessage]
  cases h : (parseMessage m).validated with
  | none =>
    simp [h, recordSeqs_upsertCursor, recordSeqs_insertHcsMessage, parseMessage_raw]
  | some v =>
    simp only [h]
    rw [recordSeqs_upsertCursor]
    have hp := processTypedEvent_hcsMessages t now v m.consensus_timestamp
    simp [recordSeqs, hp, insertHcsMessage, List.filter_append, parseMessage_raw]

/-- One backfill/poller message leaves the topic's cursor at its sequence
number. -/
theorem backfillProcessMessage_cursorSeq (t : String) (now : Nat) (db : DbState)
    (m : MirrorNodeMessage) :
    cursorSeq t (backfillProcessMessage t now db m) = some m.sequence_number := by
  simp only [backfillProcessMessage]
  cases h : (parseMessage m).validated <;> simp [h, cursorSeq_upsertCursor]

/-- One subscriber message whose topic resolves to the supervisor's adds
exactly its sequence number to the substrate records. -/
theorem subscriberHandleMessage_recordSeqs (t : String) (now : Nat) (db : DbState)
    (m : SdkMessage) (htop : m.topicId.getD t = t) :
    recordSeqs t (subscriberHandleMessage t now db m) =
      recordSeqs t db ++ [m.sequenceNumber] := by
  simp only [subscriberHandleMessage, htop]
  cases h : (if (decodeBase64Message m.contents).isFalsy = true then none
      else validateMessage (decodeBase64Message m.contents)) with
  | none =>
    simp [h, recordSeqs_upsertCursor, recordSeqs_insertHcsMessage]
  | some v =>
    simp only [h]
    rw [recordSeqs_upsertCursor]
    have hp := processTypedEvent_hcsMessages t now v m.consensusTimestamp
    simp [recordSeqs, hp, insertHcsMessage, List.filter_append]

/-- One subscriber message whose topic resolves to the supervisor's leaves
the cursor at its sequence number. -/
theorem subscriberHandleMessage_cursorSeq (t : String) (now : Nat) (db : DbState)
    (m : SdkMessage) (htop : m.topicId.getD t = t) :
    cursorSeq t (subscriberHandleMessage t now db m) = some m.sequenceNumber := by
  simp only [subscriberHandleMessage, htop]
  cases h : (if (decodeBase64Message m.contents).isFalsy = true then none
      else validateMessage (decodeBase64Message m.contents)) <;>
    simp [h, cursorSeq_upsertCursor]

/-- The per-topic ingestion invariant: the substrate records hold exactly
the sequence numbers 1..n and the cursor sits at n (absent when nothing
was processed yet). -/
def SeqInv (topicId : String) (n : Nat) (db : DbState) : Prop :=
  (∀ s, s ∈ recordSeqs topicId db ↔ 1 ≤ s ∧ s ≤ n) ∧
  cursorSeq topicId db = if n = 0 then none else some n

/-- One in-order step (either ingestion path) preserves the invariant. -/
theorem seqInv_applyStep (topicId : String) (now n : Nat) (db : DbState)
    (step : IngestStep) (hinv : SeqInv topicId n db)
    (hok : stepTopicOk topicId step = true) (hseq : stepSeq step = n + 1) :
    SeqInv topicId (n + 1) (applyStep topicId now db step) := by
  have hrec : recordSeqs topicId (applyStep topicId now db step) =
      recordSeqs topicId db ++ [n + 1] := by
    cases step with
    | pollerMsg m =>
      have hs : m.sequence_number = n + 1 := hseq
      simp only [applyStep, backfillProcessMessage_recordSeqs, hs]
    | streamMsg m =>
      have hs : m.sequenceNumber = n + 1 := hseq
      have htop : m.topicId.getD topicId = topicId := by
        simpa [stepTopicOk] using hok
      simp only [applyStep, subscriberHandleMessage_recordSeqs topicId now db m htop, hs]
  have hcur : cursorSeq topicId (applyStep topicId now db step) = some (n + 1) := by
    cases step with
    | pollerMsg m =>
      have hs : m.sequence_number = n + 1 := hseq
      simp only [applyStep, backfillProcessMessage_cursorSeq, hs]
    | streamMsg m =>
      have hs : m.sequenceNumber = n + 1 := hseq
      have htop : m.topicId.getD topicId = topicId := by
        simpa [stepTopicOk] using hok
      simp only [applyStep, subscriberHandleMessage_cursorSeq topicId now db m htop, hs]
  refine ⟨fun s => ?_, by simp [hcur]⟩
  have hmem := hinv.1 s
  simp only [hrec, List.mem_append, List.mem_singleton, hmem]
  omega

/-- Folding in-order steps from an invariant state preserves it. -/
theorem seqInv_applySteps (topicId : String) (now : Nat) (steps : List IngestStep) :
    ∀ (n : Nat) (db : DbState), SeqInv topicId n db →
    steps.map stepSeq = List.range' (n + 1) steps.length →
    (∀ st ∈ steps, stepTopicOk topicId st = true) →
    SeqInv topicId (n + steps.length) (applySteps topicId now steps db) := by
  induction steps with
  | nil => intro n db hinv _ _; simpa [applySteps] using hinv
  | cons s rest ih =>
    intro n db hinv hseq htop
    have hs : stepSeq s = n + 1 := by
      have := congrArg (fun l => l.headD 0) hseq
      simpa [List.range'] using this
    have hrest : rest.map stepSeq = List.range' (n + 1 + 1) rest.length := by
      have := congrArg List.tail hseq
      simpa [List.range'] using this
    have hnext := seqInv_applyStep topicId now n db s hinv (htop s (by simp)) hs
    have := ih (n + 1) (applyStep topicId now db s) hnext hrest
      (fun st hst => htop st (by simp [hst]))
    simpa [applySteps, List.foldl_cons, Nat.add_assoc, Nat.add_comm 1 rest.length,
      Nat.add_left_comm] using this

/-- `Map.set` then `Map.get`. -/
theorem mapGet_mapSet (l : List (String × SupervisorState)) (k : String)
    (v : SupervisorState) (k2 : String) :
    mapGet (mapSet l k v) k2 = if k = k2 then some v else mapGet l k2 := by
  induction l with
  | nil => rfl
  | cons p rest ih =>
    obtain ⟨k0, v0⟩ := p
    simp only [mapSet]
    by_cases h0 : k0 = k
    · rw [if_pos h0]
      simp only [mapGet]
      by_cases h2 : k = k2
      · rw [if_pos h2, if_pos h2]
      · rw [if_neg h2, if_neg h2, if_neg (fun h : k0 = k2 => h2 (h0 ▸ h))]
    · rw [if_neg h0]
      simp only [mapGet]
      by_cases h02 : k0 = k2
      · rw [if_pos h02, if_pos h02, if_neg (fun h : k = k2 => h0 (h02.trans h.symm))]
      · rw [if_neg h02, if_neg h02, ih]

/-- Key multiplicity after `Map.set`. -/
theorem countKey_mapSet (l : List (String × SupervisorState)) (k : String)
    (v : SupervisorState) :
    countKey (mapSet l k v) k = max (countKey l k) 1 := by
  induction l with
  | nil => simp [mapSet, countKey]
  | cons p rest ih =>
    obtain ⟨k0, v0⟩ := p
    simp only [mapSet]
    by_cases h0 : k0 = k
    · rw [if_pos h0]
      simp [countKey, List.filter_cons, h0]
    · rw [if_neg h0]
      simp only [countKey, List.filter_cons] at ih ⊢
      have hb : (k0 == k) = false := by simpa using h0
      simp only [hb, Bool.false_eq_true, if_false]
      exact ih

/-- An absent key has multiplicity zero, and conversely. -/
theorem mapGet_eq_none_iff_countKey (l : List (String × SupervisorState))
    (k : String) : mapGet l k = none ↔ countKey l k = 0 := by
  induction l with
  | nil => simp [mapGet, countKey]
  | cons p rest ih =>
    obtain ⟨k0, v0⟩ := p
    by_cases h0 : k0 = k
    · have hb : (k0 == k) = true := by simpa using h0
      simp [mapGet, countKey, List.filter_cons, h0, hb]
    · have hb : (k0 == k) = false := by simpa using h0
      simp only [mapGet, if_neg h0, countKey, List.filter_cons, hb,
        Bool.false_eq_true, if_false]
      exact ih

/-- scheduleReconnect never changes any supervisor's status field. -/
theorem statusOf_scheduleReconnect (m : ManagerState) (t t2 : String) :
    statusOf t2 (scheduleReconnect m t) = statusOf t2 m := by
  cases hm : mapGet m.topics t with
  | none => simp [scheduleReconnect, hm]
  | some st =>
    by_cases hr : m.isRunning
    · by_cases h : t = t2
      · subst h
        simp [scheduleReconnect, hm, hr, statusOf, mapGet_mapSet]
      · simp [scheduleReconnect, hm, hr, statusOf, mapGet_mapSet, h]
    · simp [scheduleReconnect, hm, hr]

/-- scheduleReconnect leaves other topics' entries untouched. -/
theorem mapGet_scheduleReconnect_other (m : ManagerState) (t t2 : String)
    (h : ¬t = t2) :
    mapGet (scheduleReconnect m t).topics t2 = mapGet m.topics t2 := by
  cases hm : mapGet m.topics t with
  | none => simp [scheduleReconnect, hm]
  | some st =>
    by_cases hr : m.isRunning <;> simp [scheduleReconnect, hm, hr, mapGet_mapSet, h]

/-- startStreaming leaves other topics' entries untouched. -/
theorem mapGet_startStreaming_other (m : ManagerState) (t : String)
    (subOk : Bool) (subErr : String) (t2 : String) (h : ¬t = t2) :
    mapGet (startStreaming m t subOk subErr).topics t2 = mapGet m.topics t2 := by
  cases hm : mapGet m.topics t with
  | none => simp [startStreaming, hm]
  | some st =>
    by_cases hr : m.isRunning
    · by_cases hsub : subOk
      · simp [startStreaming, hm, hr, hsub, mapGet_mapSet, h]
      · simp only [startStreaming, hm, hr, hsub, Bool.false_eq_true, if_false, if_true]
        rw [mapGet_scheduleReconnect_other _ _ _ h]
        simp [mapGet_mapSet, h]
    · simp [startStreaming, hm, hr]

/-- runBackfillThenStream leaves other topics' entries untouched. -/
theorem mapGet_runBackfillThenStream_other (m : ManagerState) (t : String)
    (o : RunOutcome) (t2 : String) (h : ¬t = t2) :
    mapGet (runBackfillThenStream m t o).topics t2 = mapGet m.topics t2 := by
  cases hm : mapGet m.topics t with
  | none => simp [runBackfillThenStream, hm]
  | some st =>
    by_cases hr : m.isRunning
    · by_cases hbf : o.backfillOk
      · simp only [runBackfillThenStream, hm, hr, hbf, if_true]
        rw [mapGet_startStreaming_other _ _ _ _ _ h]
        simp [mapGet_mapSet, h]
      · simp only [runBackfillThenStream, hm, hr, hbf, Bool.false_eq_true, if_false,
          if_true]
        rw [mapGet_scheduleReconnect_other _ _ _ h]
        simp [mapGet_mapSet, h]
    · simp [runBackfillThenStream, hm, hr]

/-- startTopic leaves other topics' entries untouched. -/
theorem mapGet_startTopic_other (m : ManagerState) (t : String) (o : RunOutcome)
    (t2 : String) (h : ¬t = t2) :
    mapGet (startTopic m t o).topics t2 = mapGet m.topics t2 := by
  simp only [startTopic]
  rw [mapGet_runBackfillThenStream_other _ _ _ _ h]
  simp [mapGet_mapSet, h]

/-- The exact supervisor state scheduleReconnect leaves at its topic. -/
theorem mapGet_scheduleReconnect_self (m : ManagerState) (t : String)
    (st : SupervisorState) (hm : mapGet m.topics t = some st)
    (hr : m.isRunning = true) :
    mapGet (scheduleReconnect m t).topics t =
      some ⟨st.status, st.reconnectAttempts + 1,
        some (min (1000 * 2 ^ st.reconnectAttempts) 60000), st.lastError⟩ := by
  simp [scheduleReconnect, hm, hr, mapGet_mapSet]

/-- The exact supervisor state a failed backfill pass leaves at its topic:
status `error` (never `reconnecting`), one more attempt, the backoff timer
armed, and the failure message recorded. -/
theorem runBackfillThenStream_fail_state (m : ManagerState) (t : String)
    (st : SupervisorState) (o : RunOutcome) (hm : mapGet m.topics t = some st)
    (hr : m.isRunning = true) (hbf : o.backfillOk = false) :
    mapGet (runBackfillThenStream m t o).topics t =
      some ⟨TopicStatus.error, st.reconnectAttempts + 1,
        some (min (1000 * 2 ^ st.reconnectAttempts) 60000),
        some o.backfillErr⟩ := by
  simp only [runBackfillThenStream, hm, hr, hbf, Bool.false_eq_true, if_false,
    if_true]
  rw [mapGet_scheduleReconnect_self _ _
    ⟨TopicStatus.error, st.reconnectAttempts, st.reconnectTimeout, some o.backfillErr⟩
    (by simp [mapGet_mapSet]) (by simp)]

/-- The exact supervisor state a fully successful pass leaves at its
topic: streaming with the attempt counter reset to zero. -/
theorem runBackfillThenStream_success_state (m : ManagerState) (t : String)
    (st : SupervisorState) (o : RunOutcome) (hm : mapGet m.topics t = some st)
    (hr : m.isRunning = true) (hbf : o.backfillOk = true)
    (hsub : o.subscribeOk = true) :
    mapGet (runBackfillThenStream m t o).topics t =
      some ⟨TopicStatus.streaming, 0, st.reconnectTimeout, st.lastError⟩ := by
  simp [runBackfillThenStream, hm, hr, hbf, startStreaming, mapGet_mapSet, hsub]

/-- A backfill-then-stream pass ends in `streaming` only when it was
already streaming or both the backfill and the subscription succeeded. -/
theorem runBackfillThenStream_streaming (m : ManagerState) (t : String)
    (o : RunOutcome)
    (h : statusOf t (runBackfillThenStream m t o) = some TopicStatus.streaming) :
    statusOf t m = some TopicStatus.streaming ∨
      (o.backfillOk = true ∧ o.subscribeOk = true) := by
  cases hm : mapGet m.topics t with
  | none =>
    left
    simpa [runBackfillThenStream, hm] using h
  | some st =>
    by_cases hr : m.isRunning
    · by_cases hbf : o.backfillOk
      · by_cases hsub : o.subscribeOk
        · exact Or.inr ⟨hbf, hsub⟩
        · exfalso
          have hfail := runBackfillThenStream_success_state
          rw [show statusOf t (runBackfillThenStream m t o) =
              some TopicStatus.error from ?_] at h
          · exact TopicStatus.noConfusion (Option.some.inj h)
          · have hsub2 : o.subscribeOk = false := by
              cases hx : o.subscribeOk
              · rfl
              · exact absurd hx hsub
            simp only [runBackfillThenStream, hm, hr, hbf, if_true, statusOf]
            simp only [startStreaming, mapGet_mapSet, if_pos rfl, hr, hsub2,
              Bool.false_eq_true, if_false, if_true]
            rw [mapGet_scheduleReconnect_self _ _
              ⟨TopicStatus.error, 0, st.reconnectTimeout, some o.subscribeErr⟩
              (by simp [mapGet_mapSet]) (by simp)]
            rfl
      · exfalso
        have hbf2 : o.backfillOk = false := by
          cases hx : o.backfillOk
          · rfl
          · exact absurd hx hbf
        rw [show statusOf t (runBackfillThenStream m t o) =
            some TopicStatus.error from ?_] at h
        · exact TopicStatus.noConfusion (Option.some.inj h)
        · simp [statusOf, runBackfillThenStream_fail_state m t st o hm
            (by simpa using hr) hbf2]
    · left
      have hr2 : m.isRunning = false := by
        cases hx : m.isRunning
        · rfl
        · exact absurd hx hr
      simpa [runBackfillThenStream, hm, hr2] using h

/-- A key's multiplicity is nonzero exactly when the key is present. -/
theorem mapGet_isSome_of_countKey_pos (l : List (String × SupervisorState))
    (k : String) (h : countKey l k ≠ 0) : (mapGet l k).isSome = true := by
  cases hm : mapGet l k with
  | none => exact absurd ((mapGet_eq_none_iff_countKey l k).mp hm) h
  | some st => rfl

/-- scheduleReconnect does not change its topic's key multiplicity. -/
theorem countKey_scheduleReconnect_self (m : ManagerState) (t : String) :
    countKey (scheduleReconnect m t).topics t = countKey m.topics t := by
  cases hm : mapGet m.topics t with
  | none => simp [scheduleReconnect, hm]
  | some st =>
    by_cases hr : m.isRunning
    · have hpos : countKey m.topics t ≠ 0 := by
        intro h0
        rw [(mapGet_eq_none_iff_countKey _ _).mpr h0] at hm
        exact Option.noConfusion hm
      simp [scheduleReconnect, hm, hr, countKey_mapSet]
      omega
    · simp [scheduleReconnect, hm, hr]

/-- startStreaming does not change its topic's key multiplicity. -/
theorem countKey_startStreaming_self (m : ManagerState) (t : String)
    (subOk : Bool) (subErr : String) :
    countKey (startStreaming m t subOk subErr).topics t = countKey m.topics t := by
  cases hm : mapGet m.topics t with
  | none => simp [startStreaming, hm]
  | some st =>
    have hpos : countKey m.topics t ≠ 0 := by
      intro h0
      rw [(mapGet_eq_none_iff_countKey _ _).mpr h0] at hm
      exact Option.noConfusion hm
    by_cases hr : m.isRunning
    · by_cases hsub : subOk
      · simp [startStreaming, hm, hr, hsub, countKey_mapSet]
        omega
      · simp only [startStreaming, hm, hr, hsub, Bool.false_eq_true, if_false,
          if_true]
        rw [countKey_scheduleReconnect_self]
        simp [countKey_mapSet]
        omega
    · simp [startStreaming, hm, hr]

/-- runBackfillThenStream does not change its topic's key multiplicity. -/
theorem countKey_runBackfillThenStream_self (m : ManagerState) (t : String)
    (o : RunOutcome) :
    countKey (runBackfillThenStream m t o).topics t = countKey m.topics t := by
  cases hm : mapGet m.topics t with
  | none => simp [runBackfillThenStream, hm]
  | some st =>
    have hpos : countKey m.topics t ≠ 0 := by
      intro h0
      rw [(mapGet_eq_none_iff_countKey _ _).mpr h0] at hm
      exact Option.noConfusion hm
    by_cases hr : m.isRunning
    · by_cases hbf : o.backfillOk
      · simp only [runBackfillThenStream, hm, hr, hbf, if_true]
        rw [countKey_startStreaming_self]
        simp [countKey_mapSet]
        omega
      · simp only [runBackfillThenStream, hm, hr, hbf, Bool.false_eq_true,
          if_false, if_true]
        rw [countKey_scheduleReconnect_self]
        simp [countKey_mapSet]
        omega
    · simp [runBackfillThenStream, hm, hr]

/-- startTopic brings its topic's key multiplicity to exactly
max(before, 1). -/
theorem countKey_startTopic_self (m : ManagerState) (t : String) (o : RunOutcome) :
    countKey (startTopic m t o).topics t = max (countKey m.topics t) 1 := by
  simp only [startTopic]
  rw [countKey_runBackfillThenStream_self]
  simp [countKey_mapSet]

/-- A topic started through startTopic stays streaming only if both phases
succeeded: the freshly registered supervisor starts idle. -/
theorem startTopic_streaming (m : ManagerState) (t : String) (o : RunOutcome)
    (h : statusOf t (startTopic m t o) = some TopicStatus.streaming) :
    o.backfillOk = true ∧ o.subscribeOk = true := by
  have hidle : statusOf t
      { m with topics := mapSet m.topics t ⟨TopicStatus.idle, 0, none, none⟩ } =
      some TopicStatus.idle := by
    simp [statusOf, mapGet_mapSet]
  rcases runBackfillThenStream_streaming _ t o h with hleft | hright
  · rw [hidle] at hleft
    exact absurd (Option.some.inj hleft) (fun hx => TopicStatus.noConfusion hx)
  · exact hright

/-- A concrete validated OPENCLAW_ACTION document. -/
def sampleActionDoc : Json :=
  Json.obj [("version", Json.str "1.0"), ("type", Json.str "OPENCLAW_ACTION"),
    ("agentId", Json.str "a1"), ("sessionKey", Json.str "s"),
    ("action", Json.obj [("tool", Json.str "t"), ("parameters", Json.obj []),
      ("result", Json.str "ok")]),
    ("timestamp", Json.num 123)]

/-- A two-message poller batch whose first message's substrate insert
fails while every other statement succeeds. -/
def c1Batch : List (MirrorNodeMessage × WritePlan) :=
  [(⟨"1700000000.000000000", "0.0.5005", none, none, 1⟩, ⟨false, true, true⟩),
   (⟨"1700000001.000000000", "0.0.5005", none, none, 2⟩, ⟨true, true, true⟩)]

/-- C1: the three statements of a message unit share no transaction, and
TopicPoller.processMessages catches any statement's failure, skips the
rest of that message and continues with the next one.  When the substrate
insert of sequence 1 fails and sequence 2 then succeeds, the final state
has the cursor at 2 with no substrate record for sequence 1: the unit did
not abort as a whole, the cursor advanced past the failed message, and the
message is never reprocessed (the next fetch starts strictly after the
cursor). -/
theorem c1_poller_cursor_advances_past_failed_write :
    recordSeqs "0.0.5005" (pollerProcessMessages "0.0.5005" 7 c1Batch emptyDb) = [2] ∧
    cursorSeq "0.0.5005" (pollerProcessMessages "0.0.5005" 7 c1Batch emptyDb) = some 2 ∧
    1 ∉ recordSeqs "0.0.5005" (pollerProcessMessages "0.0.5005" 7 c1Batch emptyDb) := by
  decide

/-- A one-message page carrying a validated ACTION event. -/
def c3Page : List MirrorNodeMessage :=
  [⟨"1700000000.000000000", "0.0.5005", some sampleActionDoc, none, 1⟩]

/-- C3: applying the same fetched page twice is NOT idempotent.  The
schema declares no unique constraint on (topic_id, sequence_number), so the
substrate insert's ON CONFLICT clause never fires and the second
application appends a second hcs_messages row; the projection re-runs as
well and appends a second agent_events row.  Only the cursor ends
unchanged. -/
theorem c3_double_apply_duplicates_rows :
    (backfillRunPage "0.0.5005" 7 c3Page emptyDb).hcsMessages.length = 1 ∧
    (backfillRunPage "0.0.5005" 7 c3Page emptyDb).agentEvents.length = 1 ∧
    (backfillRunPage "0.0.5005" 7 c3Page
      (backfillRunPage "0.0.5005" 7 c3Page emptyDb)).hcsMessages.length = 2 ∧
    (backfillRunPage "0.0.5005" 7 c3Page
      (backfillRunPage "0.0.5005" 7 c3Page emptyDb)).agentEvents.length = 2 ∧
    cursorSeq "0.0.5005" (backfillRunPage "0.0.5005" 7 c3Page
      (backfillRunPage "0.0.5005" 7 c3Page emptyDb)) =
      cursorSeq "0.0.5005" (backfillRunPage "0.0.5005" 7 c3Page emptyDb) := by
  decide

/-- C8: the subscriber start time is built through
`Number(BigInt(seconds) * 1_000_000_000n + BigInt(nanos + 1))`, a
conversion to an IEEE-754 double.  At the epoch second 1700000000 the
nanosecond total exceeds 2^53, the double grid spacing is 256 ns, and the
added nanosecond is rounded away: the effective start equals the supplied
instant exactly, so the last-seen message is NOT excluded, contradicting
both the claim and the source's own comment. -/
theorem c8_effective_start_loses_added_nanosecond :
    subscriberEffectiveStartNanos "1700000000.000000000" =
      1700000000 * 1000000000 + 0 ∧
    subscriberEffectiveStartNanos "1700000000.000000000" ≠
      1700000000 * 1000000000 + 0 + 1 := by
  decide

/-- An unknown-`type` document that structurally matches the COMMS shape. -/
def unrecognizedCommsDoc (t f x ts : String) : Json :=
  Json.obj [("type", Json.str t), ("from", Json.str f), ("text", Json.str x),
    ("timestamp", Json.str ts)]

/-- C9: for every `type` string t, a document of the COMMS shape carrying
t classifies as t verbatim (stored in the substrate record's message_type)
while validation falls through every `type`-discriminated schema (each
requires at least a `version` field) to agentCommsSchema, whose strip mode
drops the unknown `type` key; the projector therefore sees no `type`
field, dispatches to the agent_comms branch, and appends an AgentComms
row. -/
theorem c9_unrecognized_type_projects_by_shape (t f x ts ct mt tid : String)
    (payer : Option String) (seq now : Nat) (db : DbState) :
    (backfillProcessMessage tid now db
        ⟨ct, mt, some (unrecognizedCommsDoc t f x ts), payer, seq⟩).hcsMessages =
      db.hcsMessages ++
        [⟨tid, ct, seq, payer, some (unrecognizedCommsDoc t f x ts),
          unrecognizedCommsDoc t f x ts, some (Json.str t)⟩] ∧
    (backfillProcessMessage tid now db
        ⟨ct, mt, some (unrecognizedCommsDoc t f x ts), payer, seq⟩).agentComms =
      db.agentComms ++ [⟨tid, f, none, x, ts, ct, none⟩] :=
  ⟨rfl, rfl⟩

/-- C10: every payload whose decode outcome is a falsy JavaScript value —
the JSON texts "null", "false", "0" and the empty-string literal — takes
parseMessage's decode-failure branch: decoded is nulled out, and neither
classification nor validation runs, although the payload was valid JSON. -/
theorem c10_falsy_document_reported_as_decode_failure (m : MirrorNodeMessage)
    (v : Json) (hm : m.message = some v) (hv : v.isFalsy = true) :
    parseMessage m =
      ⟨m, Json.null, none, none, some "Failed to decode base64 message"⟩ := by
  simp [parseMessage, decodeBase64Message, hm, hv]

/-- A subscriber-resume message whose payload is the valid JSON text "0". -/
def c10ZeroMsg : MirrorNodeMessage :=
  ⟨"1700000700.000000000", "0.0.5005", some (Json.num 0), none, 7⟩

/-- C10 witness: the JSON document 0 is reported as a decode failure. -/
theorem c10_falsy_document_reported_as_decode_failure_witness :
    parseMessage c10ZeroMsg =
      ⟨c10ZeroMsg, Json.null, none, none, some "Failed to decode base64 message"⟩ :=
  c10_falsy_document_reported_as_decode_failure c10ZeroMsg (Json.num 0) rfl rfl

/-- A message whose payload is not decodable as JSON at all. -/
def c4UndecodableMsg : MirrorNodeMessage :=
  ⟨"1700000600.000000000", "0.0.5005", none, none, 6⟩

/-- C4 counterexample: when decoding fails the stored message_kind is the
JavaScript null (absent), not the string "unknown" the claim requires. -/
theorem c4_decode_failure_kind_absent_not_unknown :
    (parseMessage c4UndecodableMsg).messageType = none ∧
    (parseMessage c4UndecodableMsg).messageType ≠ some (Json.str "unknown") :=
  ⟨rfl, fun h => Option.noConfusion h⟩

/-- The classification rule the amended claim C4 states: an undecodable or
falsy payload yields NO kind (null, not "unknown"); a truthy mapping with
a `type` key yields that key's value verbatim; a truthy mapping without
`type` but with from/text/timestamp yields the COMMS kind; any other
truthy mapping or an array yields "unknown"; a truthy non-object document
(string, number, true) yields NO kind. -/
def amendedMessageKind (payload : Option Json) : Option Json :=
  match payload with
  | none => none
  | some v =>
    if v.isFalsy then none
    else
      match v with
      | Json.obj fields =>
        match List.lookup "type" fields with
        | some tv => some tv
        | none =>
          if (List.lookup "from" fields).isSome && (List.lookup "text" fields).isSome
              && (List.lookup "timestamp" fields).isSome then
            some (Json.str "agent_comms")
          else
            some (Json.str "unknown")
      | Json.arr _ => some (Json.str "unknown")
      | _ => none

/-- C4 (amended): parseMessage's classification output equals the amended
rule for every payload. -/
theorem c4_classification_follows_amended_rule (m : MirrorNodeMessage) :
    (parseMessage m).messageType = amendedMessageKind m.message := by
  rcases m with ⟨ct, tid, msg, payer, seq⟩
  cases msg with
  | none => rfl
  | some v =>
    cases v with
    | null => rfl
    | bool b => cases b <;> rfl
    | num n =>
      cases hn : (Json.num n).isFalsy <;>
        simp [parseMessage, decodeBase64Message, amendedMessageKind,
          classifyMessageType, Json.isObjectType, hn]
    | str s =>
      cases hn : (Json.str s).isFalsy <;>
        simp [parseMessage, decodeBase64Message, amendedMessageKind,
          classifyMessageType, Json.isObjectType, hn]
    | arr elems => rfl
    | obj fields => rfl

/-- C2: starting from an empty database, after any completed sequence of
message-processing steps (poller/backfill or subscriber, in the strict
per-topic sequence order 1..n that the substrate guarantees, each step's
writes landing under the supervisor's topic), a substrate record for the
topic exists exactly for the sequence numbers up to the cursor, and the
cursor's last_sequence_number is n — the maximum sequence number among the
stored substrate records. -/
theorem c2_cursor_tracks_max_sequence (topicId : String) (now : Nat)
    (steps : List IngestStep)
    (hseq : steps.map stepSeq = List.range' 1 steps.length)
    (htop : ∀ st ∈ steps, stepTopicOk topicId st = true) :
    (∀ s, s ∈ recordSeqs topicId (applySteps topicId now steps emptyDb) ↔
        1 ≤ s ∧ s ≤ steps.length) ∧
    cursorSeq topicId (applySteps topicId now steps emptyDb) =
      if steps.length = 0 then none else some steps.length := by
  have hbase : SeqInv topicId 0 emptyDb := by
    constructor
    · intro s
      simp [recordSeqs, emptyDb]
      omega
    · rfl
  have hmain := seqInv_applySteps topicId now steps 0 emptyDb hbase
    (by simpa using hseq) htop
  simp only [SeqInv] at hmain
  rwa [Nat.zero_add] at hmain

/-- A mixed two-step run: sequence 1 by the poller, sequence 2 by the
subscriber. -/
def c2Steps : List IngestStep :=
  [IngestStep.pollerMsg ⟨"1700000000.000000000", "0.0.5005", none, none, 1⟩,
   IngestStep.streamMsg ⟨none, "1700000001.000000000", 2, none⟩]

/-- C2 witness: after the concrete two-step run, record 1 exists and the
cursor sits at 2. -/
theorem c2_cursor_tracks_max_sequence_witness :
    (1 ∈ recordSeqs "0.0.5005" (applySteps "0.0.5005" 7 c2Steps emptyDb) ↔
      1 ≤ 1 ∧ 1 ≤ c2Steps.length) ∧
    cursorSeq "0.0.5005" (applySteps "0.0.5005" 7 c2Steps emptyDb) =
      if c2Steps.length = 0 then none else some c2Steps.length := by
  have h := c2_cursor_tracks_max_sequence "0.0.5005" 7 c2Steps (by decide) (by decide)
  exact ⟨h.1 1, h.2⟩

/-- C5: when the supervisor schedules a reconnect, the attempt counter
becomes attempts+1 and the armed delay is exactly
min(60000, 1000 × 2^(attempts−1)) milliseconds for the post-increment
counter value; and a successful backfill pass (followed by a successful
subscription start) resets the attempt counter to 0 as it enters
streaming. -/
theorem c5_reconnect_delay_and_reset (m : ManagerState) (t : String)
    (st : SupervisorState) (hm : mapGet m.topics t = some st)
    (hr : m.isRunning = true) :
    mapGet (scheduleReconnect m t).topics t =
      some ⟨st.status, st.reconnectAttempts + 1,
        some (min 60000 (1000 * 2 ^ (st.reconnectAttempts + 1 - 1))),
        st.lastError⟩ ∧
    ∀ o : RunOutcome, o.backfillOk = true → o.subscribeOk = true →
      mapGet (runBackfillThenStream m t o).topics t =
        some ⟨TopicStatus.streaming, 0, st.reconnectTimeout, st.lastError⟩ := by
  constructor
  · rw [mapGet_scheduleReconnect_self m t st hm hr]
    simp [Nat.min_comm]
  · intro o hbf hsub
    exact runBackfillThenStream_success_state m t st o hm hr hbf hsub

/-- A running manager tracking one reconnecting topic with three failed
attempts. -/
def c5Mgr : ManagerState :=
  { topics := [("0.0.5005", ⟨TopicStatus.reconnecting, 3, none, none⟩)],
    isRunning := true }

/-- C5 witness: the fourth reconnect is scheduled at 8000 ms and a
successful pass resets the counter. -/
theorem c5_reconnect_delay_and_reset_witness :
    mapGet (scheduleReconnect c5Mgr "0.0.5005").topics "0.0.5005" =
      some ⟨TopicStatus.reconnecting, 3 + 1,
        some (min 60000 (1000 * 2 ^ (3 + 1 - 1))), none⟩ ∧
    mapGet (runBackfillThenStream c5Mgr "0.0.5005" ⟨true, "", true, ""⟩).topics
        "0.0.5005" =
      some ⟨TopicStatus.streaming, 0, none, none⟩ := by
  have h := c5_reconnect_delay_and_reset c5Mgr "0.0.5005"
    ⟨TopicStatus.reconnecting, 3, none, none⟩ (by decide) rfl
  exact ⟨h.1, h.2 ⟨true, "", true, ""⟩ rfl rfl⟩

/-- A manager started on one topic whose first backfill pass fails. -/
def c6FailedStart : ManagerState :=
  mgrStart freshManager [("0.0.5005", ⟨false, "mirror node 503", true, ""⟩)]

/-- C6 counterexample: after a failed backfill pass the supervisor's
status is `error`, not `reconnecting` as the claim states (the
`reconnecting` status is entered only from the subscriber's onDisconnect
callback). -/
theorem c6_backfill_failure_goes_to_error_not_reconnecting :
    statusOf "0.0.5005" c6FailedStart = some TopicStatus.error ∧
    statusOf "0.0.5005" c6FailedStart ≠ some TopicStatus.reconnecting := by
  decide

/-- C6 (amended): a failed backfill pass moves the supervisor to the
`error` status (recording the failure and arming the backoff timer with
one more attempt), and across every manager event a supervisor is in the
`streaming` status only if it already was streaming or the event ran a
backfill pass that succeeded (followed by a successful subscription
start) — a reconnect timer firing therefore re-runs backfill and never
jumps directly to streaming. -/
theorem c6_error_status_and_streaming_only_after_backfill :
    (∀ (m : ManagerState) (t : String) (st : SupervisorState) (o : RunOutcome),
      mapGet m.topics t = some st → m.isRunning = true → o.backfillOk = false →
      mapGet (runBackfillThenStream m t o).topics t =
        some ⟨TopicStatus.error, st.reconnectAttempts + 1,
          some (min 60000 (1000 * 2 ^ st.reconnectAttempts)),
          some o.backfillErr⟩) ∧
    (∀ (m : ManagerState) (e : MgrEvent) (t : String),
      statusOf t (mgrStep m e) = some TopicStatus.streaming →
      statusOf t m = some TopicStatus.streaming ∨
        ∃ o : RunOutcome, (e = MgrEvent.add t o ∨ e = MgrEvent.timer t o) ∧
          o.backfillOk = true ∧ o.subscribeOk = true) := by
  constructor
  · intro m t st o hm hr hbf
    rw [runBackfillThenStream_fail_state m t st o hm hr hbf]
    simp [Nat.min_comm]
  · intro m e t h
    cases e with
    | add t2 o =>
      by_cases hp : (mapGet m.topics t2).isSome
      · exact Or.inl (by simpa [mgrStep, addTopic, hp] using h)
      · by_cases hr : m.isRunning
        · by_cases ht : t2 = t
          · subst ht
            have hs : statusOf t2 (startTopic m t2 o) = some TopicStatus.streaming := by
              simpa [mgrStep, addTopic, hp, hr] using h
            obtain ⟨hbf, hsub⟩ := startTopic_streaming m t2 o hs
            exact Or.inr ⟨o, Or.inl rfl, hbf, hsub⟩
          · left
            have heq : statusOf t (startTopic m t2 o) = statusOf t m := by
              simp [statusOf, mapGet_startTopic_other m t2 o t ht]
            rw [← heq]
            simpa [mgrStep, addTopic, hp, hr] using h
        · exact Or.inl (by simpa [mgrStep, addTopic, hp, hr] using h)
    | timer t2 o =>
      by_cases hr : m.isRunning
      · by_cases ht : t2 = t
        · subst ht
          have hs : statusOf t2 (runBackfillThenStream m t2 o) =
              some TopicStatus.streaming := by
            simpa [mgrStep, timerFire, hr] using h
          rcases runBackfillThenStream_streaming m t2 o hs with hleft | hright
          · exact Or.inl hleft
          · exact Or.inr ⟨o, Or.inr rfl, hright.1, hright.2⟩
        · left
          have heq : statusOf t (runBackfillThenStream m t2 o) = statusOf t m := by
            simp [statusOf, mapGet_runBackfillThenStream_other m t2 o t ht]
          rw [← heq]
          simpa [mgrStep, timerFire, hr] using h
      · exact Or.inl (by simpa [mgrStep, timerFire, hr] using h)
    | disconnect t2 =>
      cases hm : mapGet m.topics t2 with
      | none => exact Or.inl (by simpa [mgrStep, subscriberDisconnect, hm] using h)
      | some st =>
        by_cases hr : m.isRunning
        · by_cases ht : t2 = t
          · subst ht
            exfalso
            have : statusOf t2 (mgrStep m (MgrEvent.disconnect t2)) =
                some TopicStatus.reconnecting := by
              simp only [mgrStep, subscriberDisconnect, hm, hr, if_true]
              rw [statusOf_scheduleReconnect]
              simp [statusOf, mapGet_mapSet]
            rw [this] at h
            exact TopicStatus.noConfusion (Option.some.inj h)
          · left
            have heq : statusOf t (mgrStep m (MgrEvent.disconnect t2)) =
                statusOf t m := by
              simp only [mgrStep, subscriberDisconnect, hm, hr, if_true]
              rw [statusOf_scheduleReconnect]
              simp [statusOf, mapGet_mapSet, ht]
            rw [← heq]
            exact h
        · exact Or.inl (by simpa [mgrStep, subscriberDisconnect, hm, hr] using h)
    | subFail t2 msg =>
      cases hm : mapGet m.topics t2 with
      | none => exact Or.inl (by simpa [mgrStep, subscriberFailure, hm] using h)
      | some st =>
        left
        by_cases ht : t2 = t
        · subst ht
          have heq : statusOf t2 (mgrStep m (MgrEvent.subFail t2 msg)) =
              statusOf t2 m := by
            simp [mgrStep, subscriberFailure, hm, statusOf, mapGet_mapSet]
          rw [← heq]
          exact h
        · have heq : statusOf t (mgrStep m (MgrEvent.subFail t2 msg)) =
              statusOf t m := by
            simp [mgrStep, subscriberFailure, hm, statusOf, mapGet_mapSet, ht]
          rw [← heq]
          exact h
    | stop =>
      exfalso
      have : statusOf t (mgrStep m MgrEvent.stop) = none := rfl
      rw [this] at h
      exact Option.noConfusion h

/-- A streaming manager used to instantiate the amended C6 statement. -/
def c6StreamingMgr : ManagerState :=
  { topics := [("0.0.5005", ⟨TopicStatus.streaming, 0, none, none⟩)],
    isRunning := true }

/-- C6 witness: a concrete failed pass lands in `error` with the 1000 ms
timer armed, and a concrete streaming status is explained by the
already-streaming disjunct. -/
theorem c6_error_status_and_streaming_only_after_backfill_witness :
    mapGet (runBackfillThenStream c6StreamingMgr "0.0.5005"
        ⟨false, "boom", true, ""⟩).topics "0.0.5005" =
      some ⟨TopicStatus.error, 0 + 1, some (min 60000 (1000 * 2 ^ 0)),
        some "boom"⟩ ∧
    (statusOf "0.0.5005" c6StreamingMgr = some TopicStatus.streaming ∨
      ∃ o : RunOutcome,
        (MgrEvent.subFail "0.0.5005" "x" = MgrEvent.add "0.0.5005" o ∨
          MgrEvent.subFail "0.0.5005" "x" = MgrEvent.timer "0.0.5005" o) ∧
        o.backfillOk = true ∧ o.subscribeOk = true) := by
  have h := c6_error_status_and_streaming_only_after_backfill
  exact ⟨h.1 c6StreamingMgr "0.0.5005" ⟨TopicStatus.streaming, 0, none, none⟩
      ⟨false, "boom", true, ""⟩ (by decide) rfl rfl,
    h.2 c6StreamingMgr (MgrEvent.subFail "0.0.5005" "x") "0.0.5005" (by decide)⟩

/-- C7 counterexample: addTopic on a manager that is not running drops the
topic entirely — the resulting state is bit-for-bit the old one, so
nothing was "recorded as pending". -/
theorem c7_add_topic_while_stopped_records_nothing :
    addTopic freshManager "0.0.7007" ⟨true, "", true, ""⟩ = freshManager ∧
    mapGet (addTopic freshManager "0.0.7007" ⟨true, "", true, ""⟩).topics
      "0.0.7007" = none := by
  decide

/-- addTopic is a no-op when the topic is tracked or the manager stopped. -/
theorem addTopic_noop (m : ManagerState) (t : String) (o : RunOutcome)
    (h : (mapGet m.topics t).isSome = true ∨ m.isRunning = false) :
    addTopic m t o = m := by
  rcases h with hs | hnr
  · simp [addTopic, hs]
  · by_cases hp : (mapGet m.topics t).isSome
    · simp [addTopic, hp]
    · simp [addTopic, hp, hnr]

/-- addTopic on an untracked topic of a running manager registers exactly
one supervisor entry. -/
theorem addTopic_new (m : ManagerState) (t : String) (o : RunOutcome)
    (hm : mapGet m.topics t = none) (hr : m.isRunning = true) :
    (mapGet (addTopic m t o).topics t).isSome = true ∧
    countKey (addTopic m t o).topics t = 1 := by
  have h0 : countKey m.topics t = 0 := (mapGet_eq_none_iff_countKey _ _).mp hm
  have hc : countKey (addTopic m t o).topics t = 1 := by
    simp [addTopic, hm, hr, countKey_startTopic_self, h0]
  exact ⟨mapGet_isSome_of_countKey_pos _ _ (by simp [hc]), hc⟩

/-- A second addTopic of the same topic is absorbed by the first. -/
theorem addTopic_idem (m : ManagerState) (t : String) (o o2 : RunOutcome) :
    addTopic (addTopic m t o) t o2 = addTopic m t o := by
  by_cases hp : (mapGet m.topics t).isSome
  · rw [addTopic_noop m t o (Or.inl hp)]
    exact addTopic_noop m t o2 (Or.inl hp)
  · by_cases hr : m.isRunning
    · have hm : mapGet m.topics t = none := by
        cases hx : mapGet m.topics t
        · rfl
        · exact absurd (by simp [hx]) hp
      have hpres := (addTopic_new m t o hm hr).1
      exact addTopic_noop (addTopic m t o) t o2 (Or.inl hpres)
    · have hr2 : m.isRunning = false := by
        cases hx : m.isRunning
        · rfl
        · exact absurd hx hr
      rw [addTopic_noop m t o (Or.inr hr2)]
      exact addTopic_noop m t o2 (Or.inr hr2)

/-- C7 (amended): addTopic on an untracked topic of a running manager
creates and starts exactly one supervisor entry; otherwise (topic already
tracked, or manager not running) the call is a complete no-op — no pending
record is kept anywhere; and two additions of the same new topic leave
at most one supervisor (the second is absorbed). -/
theorem c7_add_topic_behavior :
    (∀ (m : ManagerState) (t : String) (o : RunOutcome),
      mapGet m.topics t = none → m.isRunning = true →
      (mapGet (addTopic m t o).topics t).isSome = true ∧
      countKey (addTopic m t o).topics t = 1) ∧
    (∀ (m : ManagerState) (t : String) (o : RunOutcome),
      (mapGet m.topics t).isSome = true ∨ m.isRunning = false →
      addTopic m t o = m) ∧
    (∀ (m : ManagerState) (t : String) (o o2 : RunOutcome),
      addTopic (addTopic m t o) t o2 = addTopic m t o) :=
  ⟨addTopic_new, addTopic_noop, addTopic_idem⟩

/-- C7 witness: concrete instances of all three amended clauses. -/
theorem c7_add_topic_behavior_witness :
    ((mapGet (addTopic ⟨[], true⟩ "0.0.7007" ⟨true, "", true, ""⟩).topics
        "0.0.7007").isSome = true ∧
      countKey (addTopic ⟨[], true⟩ "0.0.7007" ⟨true, "", true, ""⟩).topics
        "0.0.7007" = 1) ∧
    addTopic freshManager "0.0.7007" ⟨true, "", true, ""⟩ = freshManager ∧
    addTopic (addTopic ⟨[], true⟩ "0.0.7007" ⟨true, "", true, ""⟩) "0.0.7007"
        ⟨false, "e", false, "e"⟩ =
      addTopic ⟨[], true⟩ "0.0.7007" ⟨true, "", true, ""⟩ := by
  have h := c7_add_topic_behavior
  exact ⟨h.1 ⟨[], true⟩ "0.0.7007" ⟨true, "", true, ""⟩ rfl rfl,
    h.2.1 freshManager "0.0.7007" ⟨true, "", true, ""⟩ (Or.inr rfl),
    h.2.2 ⟨[], true⟩ "0.0.7007" ⟨true, "", true, ""⟩ ⟨false, "e", false, "e"⟩⟩
